import Mathlib

/-!
Shallow embedding of the sbtlTV mpv-texture native core
(`src/packages/mpv-texture`), covering:

* the Windows shared-texture exporter `DXGITextureShare`
  (`src/native/win32/dxgi_texture.cpp`),
* the libmpv wrapper `MpvContext` (`src/native/mpv_context.cpp`,
  `src/native/mpv_context.h`): property-change handling, resize staging
  and consumption, `create`/`destroy`, and the playback commands,
* the N-API controller `MpvController` (`src/mpv_controller.cc`) and the
  Linux platform stubs (`src/platform/linux/*.cc`).

GPU/OS calls are modelled by their observable outcomes: an environment
record fixes which external calls succeed, and operations additionally
return the list of external calls they issue where a claim depends on it.
C `double` fields are only ever stored and handed back by this code (never
computed with or compared), so they are embedded by an opaque carrier with
decidable equality.  C `int` is 32-bit: the one place a 64-bit value is
truncated into it models the truncation explicitly.
-/

namespace MpvTexture

/-! ### texture_share.h : formats and exported texture info -/

inductive TextureFormat
  | RGBA8
  | NV12
  | BGRA8
deriving DecidableEq, Repr

/-- `TextureInfo` from texture_share.h.  The `handle` is an opaque
platform value, embedded as a `Nat` (0 = null). -/
structure TextureInfo where
  handle : Nat
  width : Nat
  height : Nat
  format : TextureFormat
  is_valid : Bool
deriving DecidableEq, Repr

/-- `TextureInfo info = {};` — C++ zero initialization (enum value 0 is
`RGBA8`). -/
def TextureInfo.zero : TextureInfo :=
  { handle := 0, width := 0, height := 0, format := .RGBA8, is_valid := false }

/-! ### win32/dxgi_texture.cpp : double-buffered DXGI exporter -/

/-- `static const int BUFFER_COUNT = 2;` -/
def BUFFER_COUNT : Nat := 2

/-- One `TextureSlot`: D3D texture, keyed mutex, NT shared handle, GL
texture, GL FBO, WGL/DX interop object.  Pointers/handles are embedded as
presence flags or `Nat` ids (0 = null). -/
structure TextureSlot where
  d3dTexture : Bool
  keyedMutex : Bool
  sharedHandle : Nat
  glTexture : Nat
  glFBO : Nat
  wglDxObject : Bool
deriving DecidableEq, Repr

/-- A default-constructed / fully destroyed slot. -/
def TextureSlot.empty : TextureSlot :=
  { d3dTexture := false, keyedMutex := false, sharedHandle := 0,
    glTexture := 0, glFBO := 0, wglDxObject := false }

/-- The mutable state of `DXGITextureShare`.  `m_slots[BUFFER_COUNT]` with
`BUFFER_COUNT = 2` is embedded as the two fields `slot0`, `slot1`;
`m_writeIndex` is kept in `[0, BUFFER_COUNT)` by the source's
`% BUFFER_COUNT` updates. -/
structure DXGIState where
  initialized : Bool
  locked : Bool
  width : Nat
  height : Nat
  slot0 : TextureSlot
  slot1 : TextureSlot
  writeIndex : Nat
deriving DecidableEq, Repr

/-- A freshly constructed `DXGITextureShare` (all members at their
in-class initializers). -/
def DXGIState.fresh : DXGIState :=
  { initialized := false, locked := false, width := 0, height := 0,
    slot0 := .empty, slot1 := .empty, writeIndex := 0 }

/-- `m_slots[i]` for `i < BUFFER_COUNT`. -/
def DXGIState.slotAt (s : DXGIState) (i : Nat) : TextureSlot :=
  if i % BUFFER_COUNT = 0 then s.slot0 else s.slot1

/-- `m_slots[m_writeIndex]`. -/
def DXGIState.currentSlot (s : DXGIState) : TextureSlot :=
  s.slotAt s.writeIndex

/-- The ids handed out by the OS/GPU for one successfully created slot. -/
structure FreshIds where
  sharedHandle : Nat
  glTexture : Nat
  glFBO : Nat
deriving DecidableEq, Repr

/-- Outcome environment for `createSlot`: whether slot creation succeeds
(all of its D3D/WGL/GL sub-calls), and the ids produced for each slot. -/
structure SlotEnv where
  ok : Bool
  ids0 : FreshIds
  ids1 : FreshIds
deriving DecidableEq, Repr

/-- The slot produced by a fully successful `createSlot`. -/
def mkSlot (ids : FreshIds) : TextureSlot :=
  { d3dTexture := true, keyedMutex := true, sharedHandle := ids.sharedHandle,
    glTexture := ids.glTexture, glFBO := ids.glFBO, wglDxObject := true }

/-- `DXGITextureShare::createTexture`.  Sets `m_width`/`m_height`, then
creates `BUFFER_COUNT` slots; on any slot failure the already-created
slots are destroyed and it returns false (partial GPU sub-resources of
the failing slot itself are below the granularity of this model: the
failing run leaves both slots unusable, embedded as empty). -/
def createTexture (env : SlotEnv) (s : DXGIState) (w h : Nat) : Bool × DXGIState :=
  if !s.initialized then (false, s)
  else
    let s1 := { s with width := w, height := h }
    if env.ok then
      (true, { s1 with slot0 := mkSlot env.ids0, slot1 := mkSlot env.ids1, writeIndex := 0 })
    else
      (false, { s1 with slot0 := .empty, slot1 := .empty })

/-- `DXGITextureShare::resizeTexture`.  The third component counts full
slot teardown+recreation rounds performed by this call (0 on the
equal-size early return, 1 otherwise). -/
def resizeTexture (env : SlotEnv) (s : DXGIState) (w h : Nat) : Bool × DXGIState × Nat :=
  if w = s.width && h = s.height then
    (true, s, 0)
  else
    let s1 := { s with slot0 := TextureSlot.empty, slot1 := TextureSlot.empty }
    let r := createTexture env s1 w h
    (r.1, r.2, 1)

/-- WGL/DX interop calls issued by lock/unlock, for tracing. -/
inductive InteropCall
  | lock
  | unlock
deriving DecidableEq, Repr

/-- Outcome environment for the per-frame interop calls. -/
structure GpuEnv where
  interopLockOk : Bool
deriving DecidableEq, Repr

/-- `DXGITextureShare::lockTexture`.  Returns the boolean result, the new
state, and the interop calls issued. -/
def lockTexture (env : GpuEnv) (s : DXGIState) : Bool × DXGIState × List InteropCall :=
  if !s.currentSlot.wglDxObject then (false, s, [])
  else if s.locked then (true, s, [])
  else if env.interopLockOk then (true, { s with locked := true }, [.lock])
  else (false, s, [.lock])

/-- `DXGITextureShare::unlockAndExport`.  When not locked it returns the
zero-initialized `TextureInfo` and changes nothing; otherwise it issues
the interop unlock (its failure is only logged), exports the current
write slot, and advances `m_writeIndex` by `+ 1 % BUFFER_COUNT`. -/
def unlockAndExport (s : DXGIState) : TextureInfo × DXGIState × List InteropCall :=
  if !s.locked then (TextureInfo.zero, s, [])
  else
    let slot := s.currentSlot
    let info : TextureInfo :=
      { handle := slot.sharedHandle, width := s.width, height := s.height,
        format := .RGBA8, is_valid := true }
    (info, { s with locked := false, writeIndex := (s.writeIndex + 1) % BUFFER_COUNT },
     [.unlock])

/-- One render-loop export round as the render loop performs it:
`lockTexture` followed (on success) by `unlockAndExport`.  Returns the
slot index that was exported, the exported info, and the new state. -/
def lockExportStep (env : GpuEnv) (s : DXGIState) : Nat × TextureInfo × DXGIState :=
  let r := lockTexture env s
  if r.1 then
    let s1 := r.2.1
    let e := unlockAndExport s1
    (s1.writeIndex, e.1, e.2.1)
  else
    (s.writeIndex, TextureInfo.zero, s)

/-- The exporter state after `k` export rounds. -/
def exportStateAt (env : GpuEnv) (s : DXGIState) : Nat → DXGIState
  | 0 => s
  | k + 1 => (lockExportStep env (exportStateAt env s k)).2.2

/-- The slot index exported by round `k` (0-based). -/
def exportedIdxAt (env : GpuEnv) (s : DXGIState) (k : Nat) : Nat :=
  (lockExportStep env (exportStateAt env s k)).1

/-- The `TextureInfo` exported by round `k` (0-based). -/
def exportedInfoAt (env : GpuEnv) (s : DXGIState) (k : Nat) : TextureInfo :=
  (lockExportStep env (exportStateAt env s k)).2.1

/-! ### mpv_context.h / mpv_context.cpp : the libmpv wrapper -/

/-- Carrier for C `double` values flowing through this code.  The code
only ever stores them and hands them back (no arithmetic and no
comparisons on doubles occur in the modelled paths), so any carrier with
decidable equality is faithful. -/
abbrev MDouble := Int

/-- `MpvStatus` from mpv_context.h.  `width`/`height` are C `int`. -/
structure MpvStatus where
  playing : Bool
  volume : MDouble
  muted : Bool
  position : MDouble
  duration : MDouble
  width : Int
  height : Int
deriving DecidableEq, Repr

/-- `MpvStatus m_status{};` — zero initialization. -/
def MpvStatus.zero : MpvStatus :=
  { playing := false, volume := 0, muted := false, position := 0,
    duration := 0, width := 0, height := 0 }

/-- `MpvConfig` from mpv_context.h with its member initializers. -/
structure MpvConfig where
  width : Nat
  height : Nat
  hwdec : String
  vo : String
deriving DecidableEq, Repr

def MpvConfig.defaults : MpvConfig :=
  { width := 1920, height := 1080, hwdec := "auto", vo := "libmpv" }

/-- `static_cast<int>` of an `int64_t` value: truncation to 32 signed
bits. -/
def wrap32 (n : Int) : Int := (n + 2 ^ 31) % 2 ^ 32 - 2 ^ 31

/-- The payload of an `mpv_event_property`: the `format` tag together
with the pointed-to datum (`MPV_FORMAT_FLAG` carries a C `int`,
`MPV_FORMAT_DOUBLE` a `double`, `MPV_FORMAT_INT64` an `int64_t`;
`other` stands for every remaining format). -/
inductive PropData
  | flag (v : Int)
  | double (d : MDouble)
  | int64 (n : Int)
  | other
deriving DecidableEq, Repr

/-- An `mpv_event_property`: property name plus format-tagged datum. -/
structure PropEvent where
  name : String
  data : PropData
deriving DecidableEq, Repr

/-- Windows bare-GL-context globals (`g_dummyWindow`, `g_hdc`,
`g_hglrc`), as presence flags. -/
structure WinGLRes where
  window : Bool
  dc : Bool
  glrc : Bool
deriving DecidableEq, Repr

def WinGLRes.empty : WinGLRes := { window := false, dc := false, glrc := false }

/-- macOS bare-CGL-context globals (`g_cglContext`, `g_cglPixelFormat`). -/
structure MacGLRes where
  context : Bool
  pixelFormat : Bool
deriving DecidableEq, Repr

def MacGLRes.empty : MacGLRes := { context := false, pixelFormat := false }

/-- Outcomes of the Win32 calls inside `createWindowsGLContext`
(`RegisterClassA`'s result is ignored by the source). -/
structure WinGLEnv where
  createWindowOk : Bool
  getDCOk : Bool
  pixelFormatOk : Bool
  wglCreateOk : Bool
  makeCurrentOk : Bool
deriving DecidableEq, Repr

/-- `createWindowsGLContext`: on each failure it returns false at once,
leaving the globals created so far in place (no cleanup on this path). -/
def createWindowsGLContext (env : WinGLEnv) : Bool × WinGLRes :=
  if !env.createWindowOk then (false, WinGLRes.empty)
  else if !env.getDCOk then (false, { window := true, dc := false, glrc := false })
  else if !env.pixelFormatOk then (false, { window := true, dc := true, glrc := false })
  else if !env.wglCreateOk then (false, { window := true, dc := true, glrc := false })
  else if !env.makeCurrentOk then (false, { window := true, dc := true, glrc := true })
  else (true, { window := true, dc := true, glrc := true })

/-- Outcomes of the CGL calls inside `createMacOSGLContext`. -/
structure MacGLEnv where
  choosePixelFormatOk : Bool
  createContextOk : Bool
  setCurrentOk : Bool
deriving DecidableEq, Repr

/-- `createMacOSGLContext`: unlike the Windows path, each failure branch
destroys the partially created context/pixel format before returning. -/
def createMacOSGLContext (env : MacGLEnv) : Bool × MacGLRes :=
  if !env.choosePixelFormatOk then (false, MacGLRes.empty)
  else if !env.createContextOk then (false, MacGLRes.empty)
  else if !env.setCurrentOk then (false, MacGLRes.empty)
  else (true, { context := true, pixelFormat := true })

/-- The platforms on which the `MpvContext` native module is built and
loaded (the Linux build uses the stub addon, see `stub.cpp`). -/
inductive NativePlat
  | windows
  | macos
deriving DecidableEq, Repr

/-- The state of one `MpvContext` object, together with the
platform-context globals it manages.  Handles are presence flags; the
exporter's contents are the `DXGIState`; threads are "spawned and not
yet joined" flags. -/
structure CtxState where
  mpv : Bool
  renderCtx : Bool
  exporterAllocated : Bool
  exporter : DXGIState
  running : Bool
  initialized : Bool
  needsRender : Bool
  needsResize : Bool
  pendingWidth : Nat
  pendingHeight : Nat
  frameInUse : Bool
  currentFrame : TextureInfo
  status : MpvStatus
  frameCallbackSet : Bool
  statusCallbackSet : Bool
  errorCallbackSet : Bool
  config : MpvConfig
  winGL : WinGLRes
  macGL : MacGLRes
  glContext : Bool
  eventThread : Bool
  renderThread : Bool
deriving DecidableEq, Repr

/-- A freshly constructed `MpvContext` (all members at their in-class
initializers; no platform globals live). -/
def CtxState.fresh : CtxState :=
  { mpv := false, renderCtx := false, exporterAllocated := false,
    exporter := .fresh, running := false, initialized := false,
    needsRender := false, needsResize := false, pendingWidth := 0,
    pendingHeight := 0, frameInUse := false, currentFrame := .zero,
    status := .zero, frameCallbackSet := false, statusCallbackSet := false,
    errorCallbackSet := false, config := .defaults, winGL := .empty,
    macGL := .empty, glContext := false, eventThread := false,
    renderThread := false }

/-- The resize-staging block of `MpvContext::handlePropertyChange`
(executed under the status lock once both dimensions are known and
positive): record the pending size and raise the resize flag for the
render thread. -/
def stageResize (s : CtxState) (w h : Nat) : CtxState :=
  { s with pendingWidth := w, pendingHeight := h, needsResize := true }

/-- The `width` branch body of `handlePropertyChange`: truncate the
int64 to `int`; when positive and different from the stored width, store
it and — once the stored height is also positive — stage a resize.  The
local `statusChanged` flag is set unconditionally by this branch and is
therefore kept in `handlePropertyChange` itself. -/
def widthUpdate (s : CtxState) (n : Int) : CtxState :=
  let newWidth := wrap32 n
  if 0 < newWidth ∧ newWidth ≠ s.status.width then
    let s1 := { s with status := { s.status with width := newWidth } }
    if 0 < s1.status.height then
      stageResize s1 s1.status.width.toNat s1.status.height.toNat
    else s1
  else s

/-- The `height` branch body of `handlePropertyChange`, symmetric to
`widthUpdate`. -/
def heightUpdate (s : CtxState) (n : Int) : CtxState :=
  let newHeight := wrap32 n
  if 0 < newHeight ∧ newHeight ≠ s.status.height then
    let s1 := { s with status := { s.status with height := newHeight } }
    if 0 < s1.status.width then
      stageResize s1 s1.status.width.toNat s1.status.height.toNat
    else s1
  else s

/-- `MpvContext::handlePropertyChange`.  Mirrors the `strcmp`/format
dispatch chain; returns the updated state and the local `statusChanged`
flag (set unconditionally in every recognized branch).  `pause` stores
the negated flag; `mute` stores flag-to-bool; the `width`/`height`
branches are `widthUpdate`/`heightUpdate`. -/
def handlePropertyChange (s : CtxState) (e : PropEvent) : CtxState × Bool :=
  match e.name, e.data with
  | "pause", .flag v =>
      ({ s with status := { s.status with playing := v == 0 } }, true)
  | "volume", .double d =>
      ({ s with status := { s.status with volume := d } }, true)
  | "mute", .flag v =>
      ({ s with status := { s.status with muted := v != 0 } }, true)
  | "time-pos", .double d =>
      ({ s with status := { s.status with position := d } }, true)
  | "duration", .double d =>
      ({ s with status := { s.status with duration := d } }, true)
  | "width", .int64 n => (widthUpdate s n, true)
  | "height", .int64 n => (heightUpdate s n, true)
  | _, _ => (s, false)

/-- Whether the status callback is invoked after handling the event:
the source fires it exactly when `statusChanged` was set and a status
callback is installed. -/
def statusCallbackFires (s : CtxState) (e : PropEvent) : Bool :=
  (handlePropertyChange s e).2 && s.statusCallbackSet

/-- The recognized (name, format) pairs of the dispatch chain. -/
def recognizedProp (e : PropEvent) : Bool :=
  match e.name, e.data with
  | "pause", .flag _ => true
  | "volume", .double _ => true
  | "mute", .flag _ => true
  | "time-pos", .double _ => true
  | "duration", .double _ => true
  | "width", .int64 _ => true
  | "height", .int64 _ => true
  | _, _ => false

/-- The resize-consumption block at the top of `MpvContext::renderLoop`
(lines 611-619): under `m_needsResize && m_textureShare`, read the
pending size, call `resizeTexture` once when both dimensions are
positive, and clear the flag.  Returns the new state, the list of
`resizeTexture` invocations (with their arguments), and the number of
slot teardown+recreation rounds those invocations performed. -/
def consumeResize (env : SlotEnv) (s : CtxState) : CtxState × List (Nat × Nat) × Nat :=
  if s.needsResize && s.exporterAllocated then
    let w := s.pendingWidth
    let h := s.pendingHeight
    if 0 < w ∧ 0 < h then
      let r := resizeTexture env s.exporter w h
      ({ s with exporter := r.2.1, needsResize := false }, [(w, h)], r.2.2)
    else
      ({ s with needsResize := false }, [], 0)
  else (s, [], 0)

/-- Staging a whole sequence of resize requests before the render loop
next runs. -/
def foldStage (s : CtxState) (reqs : List (Nat × Nat)) : CtxState :=
  reqs.foldl (fun a r => stageResize a r.1 r.2) s

/-- Outcomes of the external calls made by `MpvContext::create`. -/
structure CreateEnv where
  winGL : WinGLEnv
  macGL : MacGLEnv
  mpvCreateOk : Bool
  mpvInitOk : Bool
  exporterFactoryOk : Bool
  exporterInitOk : Bool
  slots : SlotEnv
  renderCtxOk : Bool
deriving DecidableEq, Repr

/-- The part of `MpvContext::create` after the platform GL context has
been created successfully (from `mpv_create()` on).  Each failure branch
performs exactly the cleanup the source performs — note that none of
them touches the platform GL context. -/
def createAfterGL (env : CreateEnv) (s : CtxState) : Bool × CtxState :=
  if !env.mpvCreateOk then (false, s)
  else
    let s := { s with mpv := true }
    if !env.mpvInitOk then (false, { s with mpv := false })
    else if !env.exporterFactoryOk then (false, { s with mpv := false })
    else
      let s := { s with exporterAllocated := true, exporter := DXGIState.fresh }
      if !env.exporterInitOk then
        (false, { s with exporterAllocated := false, exporter := DXGIState.fresh,
                         mpv := false })
      else
        let s := { s with exporter := { s.exporter with initialized := true } }
        let r := createTexture env.slots s.exporter s.config.width s.config.height
        if !r.1 then
          (false, { s with exporterAllocated := false, exporter := DXGIState.fresh,
                           mpv := false })
        else
          let s := { s with exporter := r.2 }
          if !env.renderCtxOk then
            (false, { s with exporterAllocated := false, exporter := DXGIState.fresh,
                             mpv := false })
          else
            (true, { s with renderCtx := true, running := true, eventThread := true,
                            renderThread := true, initialized := true })

/-- `MpvContext::create`.  Returns true at once when already
initialized; otherwise stores the config, creates the platform GL
context (returning false on its failure, with whatever partial globals
that path left), and proceeds through engine handle, exporter,
shared texture, render context, property subscriptions and both
threads. -/
def create (p : NativePlat) (env : CreateEnv) (cfg : MpvConfig) (s : CtxState) :
    Bool × CtxState :=
  if s.initialized then (true, s)
  else
    let s := { s with config := cfg }
    match p with
    | .windows =>
        let r := createWindowsGLContext env.winGL
        if !r.1 then (false, { s with winGL := r.2 })
        else createAfterGL env { s with winGL := r.2, glContext := true }
    | .macos =>
        let r := createMacOSGLContext env.macGL
        if !r.1 then (false, { s with macGL := r.2 })
        else createAfterGL env { s with macGL := r.2, glContext := true }

/-- `MpvContext::destroy`.  Early-returns (no release, no thread
operation) when not initialized; otherwise stops and joins both threads,
frees render context, engine handle and exporter, destroys the platform
GL context and clears `m_initialized`.  The boolean reports whether the
teardown ran. -/
def destroy (p : NativePlat) (s : CtxState) : CtxState × Bool :=
  if !s.initialized then (s, false)
  else
    let s := { s with running := false, needsRender := true,
                      eventThread := false, renderThread := false,
                      renderCtx := false, mpv := false,
                      exporterAllocated := false, exporter := DXGIState.fresh }
    match p with
    | .windows =>
        ({ s with winGL := WinGLRes.empty, glContext := false,
                  initialized := false }, true)
    | .macos =>
        ({ s with macGL := MacGLRes.empty, glContext := false,
                  initialized := false }, true)

/-! ### Engine command submission (mpv_context.cpp and mpv_controller.cc) -/

/-- One libmpv entry point invoked by a playback operation.
`command` is `mpv_command` (synchronous: returns the command's own
result); `commandAsync` is `mpv_command_async` (fire-and-forget
submission with a reply id); the `setProperty` forms are the synchronous
`mpv_set_property` with the given format. -/
inductive EngineCall
  | command (args : List String)
  | commandAsync (replyId : Nat) (args : List String)
  | setPropertyFlag (name : String) (value : Int)
  | setPropertyDouble (name : String) (value : MDouble)
deriving DecidableEq, Repr

/-- Whether the entry point is the fire-and-forget submission
(`mpv_command_async`), which returns as soon as the command is queued. -/
def EngineCall.isFireAndForget : EngineCall → Bool
  | .commandAsync _ _ => true
  | _ => false

/-- Whether the entry point is a synchronous call whose return value is
the engine's immediate result for that command/property. -/
def EngineCall.isSyncSubmission : EngineCall → Bool
  | .command _ => true
  | .setPropertyFlag _ _ => true
  | .setPropertyDouble _ _ => true
  | .commandAsync _ _ => false

/-- `MpvContext::load`: builds a `loadfile` command (with or without the
options argument) and submits it via `mpv_command`; returns
`result >= 0` where `result` is the engine's return value (`cmdOk`
embeds that outcome).  Returns false with no engine call when `m_mpv`
is null. -/
def ctxLoad (cmdOk : Bool) (s : CtxState) (url options : String) :
    Bool × List EngineCall :=
  if !s.mpv then (false, [])
  else if options ≠ "" then
    (cmdOk, [.command ["loadfile", url, "replace", options]])
  else
    (cmdOk, [.command ["loadfile", url]])

/-- `MpvContext::play`: `mpv_set_property(m_mpv, "pause", FLAG, 0)`. -/
def ctxPlay (s : CtxState) : List EngineCall :=
  if !s.mpv then [] else [.setPropertyFlag "pause" 0]

/-- `MpvContext::pause`: `mpv_set_property(m_mpv, "pause", FLAG, 1)`. -/
def ctxPause (s : CtxState) : List EngineCall :=
  if !s.mpv then [] else [.setPropertyFlag "pause" 1]

/-- `MpvContext::stop`: `mpv_command(m_mpv, stop)`. -/
def ctxStop (s : CtxState) : List EngineCall :=
  if !s.mpv then [] else [.command ["stop"]]

/-- `MpvContext::seek`: `mpv_command(m_mpv, seek <pos> absolute)`. -/
def ctxSeek (s : CtxState) (position : MDouble) : List EngineCall :=
  if !s.mpv then [] else [.command ["seek", toString position, "absolute"]]

/-- `MpvContext::setVolume`: `mpv_set_property(m_mpv, "volume", DOUBLE)`. -/
def ctxSetVolume (s : CtxState) (volume : MDouble) : List EngineCall :=
  if !s.mpv then [] else [.setPropertyDouble "volume" volume]

/-- `MpvContext::toggleMute`: `mpv_command(m_mpv, cycle mute)`. -/
def ctxToggleMute (s : CtxState) : List EngineCall :=
  if !s.mpv then [] else [.command ["cycle", "mute"]]

/-! ### mpv_controller.cc and the Linux platform stubs -/

/-- The platforms `MpvController::IsSupported` distinguishes. -/
inductive Platform
  | windows
  | macos
  | linux
deriving DecidableEq, Repr

/-- `MpvController::IsSupported` (mpv_controller.cc lines 25-33). -/
def IsSupported : Platform → Bool
  | .macos => true
  | .windows => true
  | .linux => false

/-- `DMABufTexture::Create` (platform/linux/dmabuf_texture.cc): stub,
always false. -/
def dmabufCreate (_width _height : Nat) : Bool := false

/-- `DMABufTexture::Resize`: stub, always false. -/
def dmabufResize (_width _height : Nat) : Bool := false

/-- `LinuxGLContext::IsValid` (platform/linux/gl_context_linux.cc):
stub, always false. -/
def linuxGLContextIsValid : Bool := false

/-- `LinuxGLContext::MakeCurrent`: stub, always false. -/
def linuxGLContextMakeCurrent : Bool := false

/-- Outcomes of the external calls made by `MpvController::Initialize`
on the platforms where they can succeed. -/
structure CtrlEnv where
  glCreateOk : Bool
  glValid : Bool
  makeCurrentOk : Bool
  texManagerCreateOk : Bool
  texCreateOk : Bool
  mpvCreateOk : Bool
  mpvInitOk : Bool
  renderCtxOk : Bool
deriving DecidableEq, Repr

/-- `PlatformGLContext::Create` per platform: the Linux factory
unconditionally returns nullptr (gl_context_linux.cc lines 25-28);
elsewhere the outcome is the environment's (`some isValid` when the
factory yields an object). -/
def platformGLContextCreate (p : Platform) (env : CtrlEnv) : Option Bool :=
  match p with
  | .linux => none
  | _ => if env.glCreateOk then some env.glValid else none

/-- `SharedTextureManager::Create` per platform: the Linux factory
unconditionally returns nullptr (dmabuf_texture.cc lines 26-29). -/
def sharedTextureManagerCreate (p : Platform) (env : CtrlEnv) : Option Unit :=
  match p with
  | .linux => none
  | _ => if env.texManagerCreateOk then some () else none

/-- The state of one `MpvController` object (handles as presence
flags). -/
structure CtrlState where
  width : Nat
  height : Nat
  initialized : Bool
  glContext : Bool
  texManager : Bool
  mpv : Bool
  renderCtx : Bool
deriving DecidableEq, Repr

/-- `MpvController::Initialize`.  Follows the source step for step; a
thrown JS error is embedded as `Except.error` with the source's message.
Failure paths leave already-created members in place (the controller
relies on its destructor for cleanup). -/
def ctrlInit (p : Platform) (env : CtrlEnv) (s : CtrlState) :
    Except String Bool × CtrlState :=
  if s.initialized then (.ok true, s)
  else
    match platformGLContextCreate p env with
    | none => (.error "Failed to create GL context", s)
    | some valid =>
        let s := { s with glContext := true }
        if !valid then (.error "Failed to create GL context", s)
        else if !env.makeCurrentOk then
          (.error "Failed to make GL context current", s)
        else
          match sharedTextureManagerCreate p env with
          | none => (.error "Failed to create shared texture manager", s)
          | some _ =>
              let s := { s with texManager := true }
              if !env.texCreateOk then
                (.error "Failed to create shared texture", s)
              else if !env.mpvCreateOk then
                (.error "Failed to create mpv instance", s)
              else
                let s := { s with mpv := true }
                if !env.mpvInitOk then
                  (.error "Failed to initialize mpv", s)
                else if !env.renderCtxOk then
                  (.error "Failed to create mpv render context", s)
                else
                  (.ok true, { s with renderCtx := true, initialized := true })

/-- A GPU-context operation executed on the thread that called
`MpvController::Resize` (the host/JS thread). -/
inductive HostGpuOp
  | makeCurrent
  | texManagerResize (w h : Nat)
deriving DecidableEq, Repr

/-- `MpvController::Resize` (mpv_controller.cc lines 328-354): ignores a
zero dimension; when the size differs it stores the new size and — with
a texture manager and GL context present — makes the GL context current
and resizes the texture manager, all on the calling thread.  The second
component is the list of GPU operations executed on that thread. -/
def ctrlResize (s : CtrlState) (w h : Nat) : CtrlState × List HostGpuOp :=
  if w = 0 ∨ h = 0 then (s, [])
  else if w ≠ s.width ∨ h ≠ s.height then
    let s := { s with width := w, height := h }
    if s.texManager && s.glContext then
      (s, [.makeCurrent, .texManagerResize w h])
    else (s, [])
  else (s, [])

/-- `MpvController::LoadFile`: submits `loadfile <url>` via
`mpv_command_async` with reply id 0 (throws, with no engine call, when
`mpv_` is null). -/
def ctrlLoadFile (s : CtrlState) (url : String) : List EngineCall :=
  if !s.mpv then [] else [.commandAsync 0 ["loadfile", url]]

/-! ### Derived predicates used by the statements -/

/-- The platform-GL step of `create` succeeded. -/
def glStepOk (p : NativePlat) (env : CreateEnv) : Bool :=
  match p with
  | .windows => (createWindowsGLContext env.winGL).1
  | .macos => (createMacOSGLContext env.macGL).1

/-- All of `create`'s steps after the platform GL context succeed. -/
def postGLStepsOk (env : CreateEnv) : Bool :=
  env.mpvCreateOk && env.mpvInitOk && env.exporterFactoryOk &&
  env.exporterInitOk && env.slots.ok && env.renderCtxOk

/-- Whether the bare platform GPU context is (still) alive. -/
def platGLAlive (p : NativePlat) (s : CtxState) : Bool :=
  match p with
  | .windows => s.winGL.glrc
  | .macos => s.macGL.context

/-- No live native resources held by an `MpvContext`. -/
def noNativeRes (s : CtxState) : Prop :=
  s.mpv = false ∧ s.renderCtx = false ∧ s.exporterAllocated = false ∧
  s.exporter = DXGIState.fresh ∧ s.winGL = WinGLRes.empty ∧
  s.macGL = MacGLRes.empty ∧ s.eventThread = false ∧ s.renderThread = false

/-! ### Concrete instances for counterexamples and witnesses -/

/-- A per-frame environment in which the interop lock succeeds. -/
def gpuEnvOk : GpuEnv := { interopLockOk := true }

/-- A slot-creation environment in which slot creation succeeds. -/
def slotEnvOk : SlotEnv :=
  { ok := true, ids0 := { sharedHandle := 21, glTexture := 5, glFBO := 6 },
    ids1 := { sharedHandle := 22, glTexture := 7, glFBO := 8 } }

/-- An exporter holding two fully created 640x480 slots. -/
def exporter640 : DXGIState :=
  { initialized := true, locked := false, width := 640, height := 480,
    slot0 := mkSlot { sharedHandle := 11, glTexture := 1, glFBO := 2 },
    slot1 := mkSlot { sharedHandle := 12, glTexture := 3, glFBO := 4 },
    writeIndex := 0 }

/-- `exporter640` inside an open lock bracket. -/
def exporter640Locked : DXGIState := { exporter640 with locked := true }

/-- A context whose status already stores volume 50, with a status
callback installed. -/
def volumeState : CtxState :=
  { CtxState.fresh with
      statusCallbackSet := true,
      status := { MpvStatus.zero with volume := 50 } }

/-- A `volume` property-change event carrying the value 50 again. -/
def volumeEvent : PropEvent := { name := "volume", data := .double 50 }

/-- A context created at 640x480 whose exporter holds 640x480 slots. -/
def ctxAfter640Create : CtxState :=
  { CtxState.fresh with
      exporterAllocated := true,
      exporter := exporter640,
      statusCallbackSet := true,
      config := { width := 640, height := 480, hwdec := "auto", vo := "libmpv" } }

/-- `ctxAfter640Create` after the event loop processed a height=480 then
a width=640 property change: this stages a resize request to 640x480,
the exporter's current size. -/
def stagedState : CtxState :=
  (handlePropertyChange
    (handlePropertyChange ctxAfter640Create { name := "height", data := .int64 480 }).1
    { name := "width", data := .int64 640 }).1

/-- A `create` environment where every external call succeeds. -/
def allOkCreateEnv : CreateEnv :=
  { winGL := { createWindowOk := true, getDCOk := true, pixelFormatOk := true,
               wglCreateOk := true, makeCurrentOk := true },
    macGL := { choosePixelFormatOk := true, createContextOk := true,
               setCurrentOk := true },
    mpvCreateOk := true, mpvInitOk := true, exporterFactoryOk := true,
    exporterInitOk := true, slots := slotEnvOk, renderCtxOk := true }

/-- `allOkCreateEnv` except that `mpv_create()` fails. -/
def mpvCreateFailEnv : CreateEnv := { allOkCreateEnv with mpvCreateOk := false }

/-- A fully created (initialized) `MpvContext` on Windows. -/
def liveCtx : CtxState :=
  { CtxState.fresh with
      initialized := true, running := true, mpv := true,
      renderCtx := true, exporterAllocated := true, exporter := exporter640,
      winGL := { window := true, dc := true, glrc := true }, glContext := true,
      eventThread := true, renderThread := true }

/-- An `MpvContext` state with a live engine handle. -/
def loadReadyCtx : CtxState := { CtxState.fresh with mpv := true }

/-- A fully initialized `MpvController` at 1920x1080. -/
def liveCtrl : CtrlState :=
  { width := 1920, height := 1080, initialized := true, glContext := true,
    texManager := true, mpv := true, renderCtx := true }

/-- A default-constructed `MpvController` at 1280x720, not initialized. -/
def freshCtrl : CtrlState :=
  { width := 1280, height := 720, initialized := false, glContext := false,
    texManager := false, mpv := false, renderCtx := false }

/-- An arbitrary controller environment (all external calls succeed). -/
def allOkCtrlEnv : CtrlEnv :=
  { glCreateOk := true, glValid := true, makeCurrentOk := true,
    texManagerCreateOk := true, texCreateOk := true, mpvCreateOk := true,
    mpvInitOk := true, renderCtxOk := true }

/-! ### Exporter lock/unlock bracket (claim C9) -/

/-- C9: `unlockAndExport` with no open lock bracket returns the
zero-initialized `TextureInfo` (`is_valid` false, handle/width/height
zero) and leaves the exporter — write cursor and slots included —
unchanged, issuing no interop call; and `lockTexture` while already
locked (with the current write slot registered for interop) returns true
without issuing a second interop lock. -/
theorem C9_idempotent_bracket (env : GpuEnv) (s : DXGIState) :
    (s.locked = false → unlockAndExport s = (TextureInfo.zero, s, [])) ∧
    (s.locked = true → s.currentSlot.wglDxObject = true →
      lockTexture env s = (true, s, [])) := by
  constructor
  · intro h
    simp [unlockAndExport, h]
  · intro h hobj
    simp [lockTexture, h, hobj]

/-- Witness for C9 at concrete exporter states. -/
theorem C9_idempotent_bracket_witness :
    unlockAndExport exporter640 = (TextureInfo.zero, exporter640, []) ∧
    lockTexture gpuEnvOk exporter640Locked = (true, exporter640Locked, []) :=
  ⟨(C9_idempotent_bracket gpuEnvOk exporter640).1 rfl,
   (C9_idempotent_bracket gpuEnvOk exporter640Locked).2 rfl rfl⟩

/-! ### Export slot cycling (claim C4) -/

/-- One ready export round: with the current slot registered, the
exporter unlocked and the interop lock succeeding, a lock+export round
exports the current write slot and advances the cursor modulo
`BUFFER_COUNT`. -/
theorem lockExportStep_ready (env : GpuEnv) (t : DXGIState)
    (hlock : env.interopLockOk = true) (hobj : t.currentSlot.wglDxObject = true)
    (hl : t.locked = false) :
    lockExportStep env t =
      (t.writeIndex,
       { handle := t.currentSlot.sharedHandle, width := t.width,
         height := t.height, format := .RGBA8, is_valid := true },
       { t with writeIndex := (t.writeIndex + 1) % BUFFER_COUNT }) := by
  have hobj2 : (if t.writeIndex % BUFFER_COUNT = 0 then t.slot0 else t.slot1).wglDxObject
      = true := by
    simpa [DXGIState.currentSlot, DXGIState.slotAt] using hobj
  simp [lockExportStep, lockTexture, unlockAndExport, DXGIState.currentSlot,
        DXGIState.slotAt, hobj2, hl, hlock]

/-- Closed form of the exporter state across ready export rounds. -/
theorem exportStateAt_closed (env : GpuEnv) (s : DXGIState)
    (hlock : env.interopLockOk = true) (h0 : s.slot0.wglDxObject = true)
    (h1 : s.slot1.wglDxObject = true) (hl : s.locked = false)
    (hw : s.writeIndex < BUFFER_COUNT) :
    ∀ k, exportStateAt env s k =
      { s with writeIndex := (s.writeIndex + k) % BUFFER_COUNT } := by
  intro k
  induction k with
  | zero =>
      simp [exportStateAt, Nat.mod_eq_of_lt hw]
  | succ k ih =>
      have hobj : ({ s with writeIndex := (s.writeIndex + k) % BUFFER_COUNT } :
          DXGIState).currentSlot.wglDxObject = true := by
        rcases Nat.mod_two_eq_zero_or_one (s.writeIndex + k) with hk | hk <;>
          simp [DXGIState.currentSlot, DXGIState.slotAt, BUFFER_COUNT, hk, h0, h1]
      rw [exportStateAt, ih, lockExportStep_ready env _ hlock hobj hl]
      simp [BUFFER_COUNT]
      omega

/-- C4: across consecutive successful lock+export rounds (slot count
`BUFFER_COUNT = 2`, no intervening resize), round `k` exports slot
`(start + k) % BUFFER_COUNT` — so the exported index cycles with period
equal to the slot count — every round's export is valid, and after each
round the write cursor differs from the slot just exported. -/
theorem C4_export_cycles (env : GpuEnv) (s : DXGIState)
    (hlock : env.interopLockOk = true) (h0 : s.slot0.wglDxObject = true)
    (h1 : s.slot1.wglDxObject = true) (hl : s.locked = false)
    (hw : s.writeIndex < BUFFER_COUNT) (k : Nat) :
    exportedIdxAt env s k = (s.writeIndex + k) % BUFFER_COUNT ∧
    exportedIdxAt env s (k + BUFFER_COUNT) = exportedIdxAt env s k ∧
    (exportedInfoAt env s k).is_valid = true ∧
    (exportStateAt env s (k + 1)).writeIndex ≠ exportedIdxAt env s k := by
  have hstate := exportStateAt_closed env s hlock h0 h1 hl hw
  have hobj : ∀ m, ({ s with writeIndex := (s.writeIndex + m) % BUFFER_COUNT } :
      DXGIState).currentSlot.wglDxObject = true := by
    intro m
    rcases Nat.mod_two_eq_zero_or_one (s.writeIndex + m) with hk | hk <;>
      simp [DXGIState.currentSlot, DXGIState.slotAt, BUFFER_COUNT, hk, h0, h1]
  have hstep : ∀ m, lockExportStep env (exportStateAt env s m) =
      ((s.writeIndex + m) % BUFFER_COUNT,
       { handle := ({ s with writeIndex := (s.writeIndex + m) % BUFFER_COUNT } :
            DXGIState).currentSlot.sharedHandle,
         width := s.width, height := s.height, format := .RGBA8, is_valid := true },
       { s with writeIndex := (((s.writeIndex + m) % BUFFER_COUNT) + 1) % BUFFER_COUNT }) := by
    intro m
    rw [hstate m, lockExportStep_ready env _ hlock (hobj m) hl]
  have hidx : ∀ m, exportedIdxAt env s m = (s.writeIndex + m) % BUFFER_COUNT := by
    intro m
    simp [exportedIdxAt, hstep m]
  refine ⟨hidx k, ?_, ?_, ?_⟩
  · rw [hidx k, hidx (k + BUFFER_COUNT)]
    simp only [BUFFER_COUNT]
    omega
  · simp [exportedInfoAt, hstep k]
  · rw [hidx k, hstate (k + 1)]
    simp only [BUFFER_COUNT]
    omega

/-- Witness for C4 at a concrete exporter state and round. -/
theorem C4_export_cycles_witness :
    exportedIdxAt gpuEnvOk exporter640 1 =
      (exporter640.writeIndex + 1) % BUFFER_COUNT ∧
    (exportStateAt gpuEnvOk exporter640 2).writeIndex ≠
      exportedIdxAt gpuEnvOk exporter640 1 := by
  have h := C4_export_cycles gpuEnvOk exporter640 rfl rfl rfl rfl (by decide) 1
  exact ⟨h.1, h.2.2.2⟩

/-! ### Status-callback firing (claim C1) -/

/-- The local `statusChanged` flag is set exactly when the event's
(name, format) pair is one of the seven recognized ones — independently
of whether its value differs from the stored one. -/
theorem statusChanged_eq_recognized (s : CtxState) (e : PropEvent) :
    (handlePropertyChange s e).2 = recognizedProp e := by
  rcases e with ⟨name, data⟩
  cases data <;>
    (unfold handlePropertyChange recognizedProp
     split <;> rfl)

/-- C1 counterexample: with a status callback installed and stored
volume 50, a `volume` property-change event carrying the value 50 again
fires the status callback even though no observed field changed (the
state is unchanged) — refuting "an event carrying a value equal to the
current stored value fires no status callback". -/
theorem C1_fires_despite_equal_value :
    statusCallbackFires volumeState volumeEvent = true ∧
    (handlePropertyChange volumeState volumeEvent).1 = volumeState := by
  exact ⟨rfl, rfl⟩

/-- C1 amended: the status callback fires after handling a
property-change event if and only if a status callback is installed and
the event's (name, format) pair is recognized (`pause`/flag,
`volume`/double, `mute`/flag, `time-pos`/double, `duration`/double,
`width`/int64, `height`/int64) — value equality with the stored field
plays no role. -/
theorem C1_fires_iff_recognized (s : CtxState) (e : PropEvent) :
    statusCallbackFires s e = (recognizedProp e && s.statusCallbackSet) := by
  rw [statusCallbackFires, statusChanged_eq_recognized]

/-! ### Resize staging and consumption (claim C3) -/

/-- Staging one more request after a sequence overwrites the pending
size and raises the flag: last-write-wins. -/
theorem foldStage_append_single (s : CtxState) (reqs : List (Nat × Nat)) (w h : Nat) :
    foldStage s (reqs ++ [(w, h)]) = stageResize (foldStage s reqs) w h := by
  simp [foldStage, List.foldl_append]

/-- Staging never touches the exporter or its allocation flag. -/
theorem foldStage_exporter (s : CtxState) (reqs : List (Nat × Nat)) :
    (foldStage s reqs).exporter = s.exporter ∧
    (foldStage s reqs).exporterAllocated = s.exporterAllocated := by
  induction reqs generalizing s with
  | nil => exact ⟨rfl, rfl⟩
  | cons x xs ih =>
      have h := ih (stageResize s x.1 x.2)
      simpa [foldStage, stageResize] using h

/-- C3 counterexample: staging height=480 then width=640 property
changes on a context whose exporter already holds 640x480 slots stages a
resize request for 640x480; the render loop's single consumption invokes
`resizeTexture` once with (640, 480), but — the size being unchanged —
performs zero slot teardown+recreation rounds, refuting "the single
consumption performs exactly one exporter resize (one slot
teardown+recreation)". -/
theorem C3_noop_resize_counterexample :
    stagedState.needsResize = true ∧
    (consumeResize slotEnvOk stagedState).2.1 = [(640, 480)] ∧
    (consumeResize slotEnvOk stagedState).2.2 = 0 := by
  refine ⟨by decide, by decide, by decide⟩

/-- C3 amended: for every sequence of staged resize requests, the single
consumption invokes the exporter resize exactly once, with the width and
height of the last request staged; that invocation performs exactly one
slot teardown+recreation when the requested size differs from the
exporter's current size and none when it is unchanged; afterwards the
exporter's size is the last request's and the flag is cleared.  Earlier
requests in the sequence have no effect on any of this. -/
theorem C3_last_write_wins (env : SlotEnv) (s : CtxState) (reqs : List (Nat × Nat))
    (w h : Nat) (hw : 0 < w) (hh : 0 < h)
    (halloc : s.exporterAllocated = true) (hinit : s.exporter.initialized = true)
    (hok : env.ok = true) :
    (consumeResize env (foldStage s (reqs ++ [(w, h)]))).2.1 = [(w, h)] ∧
    (consumeResize env (foldStage s (reqs ++ [(w, h)]))).2.2 =
      (if w = s.exporter.width ∧ h = s.exporter.height then 0 else 1) ∧
    (consumeResize env (foldStage s (reqs ++ [(w, h)]))).1.exporter.width = w ∧
    (consumeResize env (foldStage s (reqs ++ [(w, h)]))).1.exporter.height = h ∧
    (consumeResize env (foldStage s (reqs ++ [(w, h)]))).1.needsResize = false := by
  obtain ⟨hex, hal⟩ := foldStage_exporter s reqs
  rw [foldStage_append_single]
  by_cases hsz : w = s.exporter.width ∧ h = s.exporter.height
  · obtain ⟨h1, h2⟩ := hsz
    subst h1
    subst h2
    simp [consumeResize, stageResize, resizeTexture, hal, halloc, hw, hh, hex]
  · simp only [consumeResize, stageResize, resizeTexture, createTexture]
    simp [hal, halloc, hw, hh, hex, hinit, hok, hsz]

/-- Witness for C3 at a concrete staged sequence (800x600 then
1280x720 on a 640x480 exporter). -/
theorem C3_last_write_wins_witness :
    (consumeResize slotEnvOk
      (foldStage ctxAfter640Create ([(800, 600)] ++ [(1280, 720)]))).2.1 =
      [(1280, 720)] ∧
    (consumeResize slotEnvOk
      (foldStage ctxAfter640Create ([(800, 600)] ++ [(1280, 720)]))).2.2 = 1 := by
  have h := C3_last_write_wins slotEnvOk ctxAfter640Create [(800, 600)] 1280 720
    (by decide) (by decide) rfl rfl rfl
  refine ⟨h.1, ?_⟩
  rw [h.2.1]
  decide

/-! ### create rollback (claim C2) and create idempotence (claim C10) -/

/-- A successful Windows GL-context creation leaves all three globals
live. -/
theorem createWindowsGLContext_ok (e : WinGLEnv)
    (h : (createWindowsGLContext e).1 = true) :
    createWindowsGLContext e =
      (true, { window := true, dc := true, glrc := true }) := by
  unfold createWindowsGLContext at h ⊢
  split_ifs at h ⊢
  simp_all

/-- A successful macOS CGL-context creation leaves both globals live. -/
theorem createMacOSGLContext_ok (e : MacGLEnv)
    (h : (createMacOSGLContext e).1 = true) :
    createMacOSGLContext e = (true, { context := true, pixelFormat := true }) := by
  unfold createMacOSGLContext at h ⊢
  split_ifs at h ⊢
  simp_all

/-- When some step after the platform GL context fails, `createAfterGL`
returns false having released the engine handle, exporter and render
context, without spawning threads — and without touching the platform
GL fields. -/
theorem createAfterGL_fail (env : CreateEnv) (s : CtxState)
    (hmpv : s.mpv = false) (hrc : s.renderCtx = false)
    (hal : s.exporterAllocated = false) (hex : s.exporter = DXGIState.fresh)
    (het : s.eventThread = false) (hrt : s.renderThread = false)
    (hini : s.initialized = false)
    (hfail : postGLStepsOk env = false) :
    (createAfterGL env s).1 = false ∧
    (createAfterGL env s).2.mpv = false ∧
    (createAfterGL env s).2.renderCtx = false ∧
    (createAfterGL env s).2.exporterAllocated = false ∧
    (createAfterGL env s).2.exporter = DXGIState.fresh ∧
    (createAfterGL env s).2.eventThread = false ∧
    (createAfterGL env s).2.renderThread = false ∧
    (createAfterGL env s).2.initialized = false ∧
    (createAfterGL env s).2.winGL = s.winGL ∧
    (createAfterGL env s).2.macGL = s.macGL := by
  rcases env with ⟨wgl, mgl, mc, mi, ef, ei, sl, rco⟩
  rcases sl with ⟨sok, i0, i1⟩
  simp only [postGLStepsOk] at hfail
  cases mc <;> cases mi <;> cases ef <;> cases ei <;> cases sok <;> cases rco <;>
    simp_all [createAfterGL, createTexture]

/-- C2 counterexample: on Windows, with GL-context creation succeeding
and `mpv_create()` failing, `create` returns false but the bare GL
context (`g_hglrc`) is still alive — refuting "every resource allocated
by the earlier steps, including the bare GPU context, is released before
returning". -/
theorem C2_glContext_survives_rollback :
    (create .windows mpvCreateFailEnv MpvConfig.defaults CtxState.fresh).1 = false ∧
    (create .windows mpvCreateFailEnv MpvConfig.defaults
      CtxState.fresh).2.winGL.glrc = true := by
  exact ⟨by decide, by decide⟩

/-- C2 amended: when the platform GL context is created successfully and
any later step of `create` fails, `create` returns false and every
resource allocated after the GPU context — engine handle, exporter,
texture slots, render context — is released and no thread is left
spawned; the bare platform GPU context, however, is not released and
remains alive. -/
theorem C2_rollback_spares_gl (p : NativePlat) (env : CreateEnv) (cfg : MpvConfig)
    (s : CtxState) (hres : noNativeRes s) (hini : s.initialized = false)
    (hgl : glStepOk p env = true) (hfail : postGLStepsOk env = false) :
    (create p env cfg s).1 = false ∧
    (create p env cfg s).2.mpv = false ∧
    (create p env cfg s).2.renderCtx = false ∧
    (create p env cfg s).2.exporterAllocated = false ∧
    (create p env cfg s).2.exporter = DXGIState.fresh ∧
    (create p env cfg s).2.eventThread = false ∧
    (create p env cfg s).2.renderThread = false ∧
    (create p env cfg s).2.initialized = false ∧
    platGLAlive p (create p env cfg s).2 = true := by
  obtain ⟨hmpv, hrc, hal, hex, hwin, hmac, het, hrt⟩ := hres
  cases p
  · simp only [glStepOk] at hgl
    have hglr := createWindowsGLContext_ok env.winGL hgl
    have h := createAfterGL_fail env
      { s with config := cfg, winGL := { window := true, dc := true, glrc := true },
               glContext := true }
      hmpv hrc hal hex het hrt hini hfail
    simp only [hini] at h
    simp only [create, hini, hglr]
    simp only [Bool.not_true, Bool.false_eq_true, if_false, ite_false, ite_true,
               Bool.true_eq_false]
    refine ⟨h.1, h.2.1, h.2.2.1, h.2.2.2.1, h.2.2.2.2.1, h.2.2.2.2.2.1,
            h.2.2.2.2.2.2.1, h.2.2.2.2.2.2.2.1, ?_⟩
    have hw := h.2.2.2.2.2.2.2.2.1
    simp only [platGLAlive, hw]
  · simp only [glStepOk] at hgl
    have hglr := createMacOSGLContext_ok env.macGL hgl
    have h := createAfterGL_fail env
      { s with config := cfg, macGL := { context := true, pixelFormat := true },
               glContext := true }
      hmpv hrc hal hex het hrt hini hfail
    simp only [hini] at h
    simp only [create, hini, hglr]
    simp only [Bool.not_true, Bool.false_eq_true, if_false, ite_false, ite_true,
               Bool.true_eq_false]
    refine ⟨h.1, h.2.1, h.2.2.1, h.2.2.2.1, h.2.2.2.2.1, h.2.2.2.2.2.1,
            h.2.2.2.2.2.2.1, h.2.2.2.2.2.2.2.1, ?_⟩
    have hm := h.2.2.2.2.2.2.2.2.2
    simp only [platGLAlive, hm]

/-- Witness for C2 amended: Windows, engine-initialize step failing. -/
theorem C2_rollback_spares_gl_witness :
    (create .windows { allOkCreateEnv with mpvInitOk := false } MpvConfig.defaults
      CtxState.fresh).1 = false ∧
    platGLAlive .windows
      (create .windows { allOkCreateEnv with mpvInitOk := false } MpvConfig.defaults
        CtxState.fresh).2 = true := by
  have h := C2_rollback_spares_gl .windows
    { allOkCreateEnv with mpvInitOk := false } MpvConfig.defaults CtxState.fresh
    (by refine ⟨rfl, rfl, rfl, rfl, rfl, rfl, rfl, rfl⟩) rfl (by decide) (by decide)
  exact ⟨h.1, h.2.2.2.2.2.2.2.2⟩

/-- C10: calling `create` on an already-initialized context returns true
immediately and changes nothing — no new engine handle, exporter, GPU
context or thread, and configuration, status and callbacks untouched. -/
theorem C10_create_when_initialized (p : NativePlat) (env : CreateEnv)
    (cfg : MpvConfig) (s : CtxState) (h : s.initialized = true) :
    create p env cfg s = (true, s) := by
  simp [create, h]

/-- Witness for C10 on a fully created context. -/
theorem C10_create_when_initialized_witness :
    create .windows allOkCreateEnv MpvConfig.defaults liveCtx = (true, liveCtx) :=
  C10_create_when_initialized .windows allOkCreateEnv MpvConfig.defaults liveCtx rfl

/-! ### destroy idempotence and teardown (claim C5) -/

/-- C5: `destroy` on a never-created or already-destroyed context is a
no-op (state unchanged, no teardown ran); on an initialized context the
teardown leaves engine handle, render context, exporter (slots included)
and platform GPU context all freed, both threads joined and
`m_initialized` cleared; and a second `destroy` immediately after any
`destroy` is a no-op. -/
theorem C5_destroy_idempotent (p : NativePlat) (s : CtxState) :
    (s.initialized = false → destroy p s = (s, false)) ∧
    (s.initialized = true →
      (destroy p s).1.mpv = false ∧
      (destroy p s).1.renderCtx = false ∧
      (destroy p s).1.exporterAllocated = false ∧
      (destroy p s).1.exporter = DXGIState.fresh ∧
      (destroy p s).1.glContext = false ∧
      platGLAlive p (destroy p s).1 = false ∧
      (destroy p s).1.eventThread = false ∧
      (destroy p s).1.renderThread = false ∧
      (destroy p s).1.running = false ∧
      (destroy p s).1.initialized = false) ∧
    destroy p (destroy p s).1 = ((destroy p s).1, false) := by
  by_cases h : s.initialized = true
  · cases p <;> simp [destroy, h, platGLAlive, WinGLRes.empty, MacGLRes.empty]
  · have h0 : s.initialized = false := by simpa using h
    cases p <;> simp [destroy, h0]

/-- Witness for C5: no-op before create, full teardown on a live
context, second call a no-op. -/
theorem C5_destroy_idempotent_witness :
    destroy .windows CtxState.fresh = (CtxState.fresh, false) ∧
    (destroy .windows liveCtx).1.mpv = false ∧
    platGLAlive .windows (destroy .windows liveCtx).1 = false ∧
    destroy .windows (destroy .windows liveCtx).1 =
      ((destroy .windows liveCtx).1, false) := by
  have hfresh := (C5_destroy_idempotent .windows CtxState.fresh).1 rfl
  have hlive := (C5_destroy_idempotent .windows liveCtx).2.1 rfl
  have htwice := (C5_destroy_idempotent .windows liveCtx).2.2
  exact ⟨hfresh, hlive.1, hlive.2.2.2.2.2.1, htwice⟩

/-! ### Host-thread resize (claim C6) -/

/-- C6 counterexample: `MpvController::Resize(1280, 720)` on an
initialized 1920x1080 controller executes GPU operations — a
make-current followed by the texture-manager resize — directly on the
calling host thread, refuting "in no execution does the host-thread
resize path itself invoke a GPU operation". -/
theorem C6_resize_runs_gpu_on_host :
    (ctrlResize liveCtrl 1280 720).2 =
      [HostGpuOp.makeCurrent, HostGpuOp.texManagerResize 1280 720] ∧
    (ctrlResize liveCtrl 1280 720).2 ≠ [] := by
  exact ⟨by decide, by decide⟩

/-- C6 amended: `MpvController::Resize` records no resize request at
all; a zero dimension is ignored, an unchanged size is a no-op, and a
changed size stores the new dimensions and performs the GPU work —
make-current then the texture-manager resize — synchronously on the
calling host thread whenever a texture manager and GL context exist
(and only stores the dimensions otherwise). -/
theorem C6_resize_is_synchronous (s : CtrlState) (w h : Nat) :
    (w = 0 ∨ h = 0 → ctrlResize s w h = (s, [])) ∧
    (w ≠ 0 → h ≠ 0 → (w ≠ s.width ∨ h ≠ s.height) →
      s.texManager = true → s.glContext = true →
      ctrlResize s w h =
        ({ s with width := w, height := h },
         [HostGpuOp.makeCurrent, HostGpuOp.texManagerResize w h])) ∧
    (w ≠ 0 → h ≠ 0 → (s.texManager = false ∨ s.glContext = false) →
      (ctrlResize s w h).2 = []) ∧
    (w ≠ 0 → h ≠ 0 → w = s.width → h = s.height → ctrlResize s w h = (s, [])) := by
  refine ⟨?_, ?_, ?_, ?_⟩
  · intro h0
    simp [ctrlResize, h0]
  · intro hw hh hne htm hgl
    simp [ctrlResize, hw, hh, hne, htm, hgl]
  · intro hw hh hno
    rcases hno with hno | hno <;>
      by_cases hne : w ≠ s.width ∨ h ≠ s.height <;>
        simp [ctrlResize, hw, hh, hne, hno]
  · intro hw hh hweq hheq
    simp [ctrlResize, hw, hh, hweq, hheq]

/-- Witness for C6 amended at concrete controller states and sizes. -/
theorem C6_resize_is_synchronous_witness :
    ctrlResize liveCtrl 0 720 = (liveCtrl, []) ∧
    ctrlResize liveCtrl 1920 1080 = (liveCtrl, []) ∧
    ctrlResize freshCtrl 1920 1080 =
      ({ freshCtrl with width := 1920, height := 1080 }, []) := by
  have h1 := (C6_resize_is_synchronous liveCtrl 0 720).1 (Or.inl rfl)
  have h2 := (C6_resize_is_synchronous liveCtrl 1920 1080).2.2.2
    (by decide) (by decide) rfl rfl
  have h3 := (C6_resize_is_synchronous freshCtrl 1920 1080).2.2.1
    (by decide) (by decide) (Or.inl rfl)
  refine ⟨h1, h2, ?_⟩
  have : (ctrlResize freshCtrl 1920 1080).1 =
      { freshCtrl with width := 1920, height := 1080 } := by decide
  exact Prod.ext this h3

/-! ### Playback command submission (claim C7) -/

/-- C7 counterexample: `MpvContext::load` submits its `loadfile` command
through `mpv_command` — the engine's synchronous entry point, whose
return value is the command's own result — not through the
fire-and-forget `mpv_command_async`, refuting "forwards its command to
the engine asynchronously (fire-and-forget submission that does not
wait for command completion)". -/
theorem C7_load_is_not_fire_and_forget :
    (ctxLoad true loadReadyCtx "sample.mp4" "").2 =
      [EngineCall.command ["loadfile", "sample.mp4"]] ∧
    (ctxLoad true loadReadyCtx "sample.mp4" "").2.all
      EngineCall.isFireAndForget = false := by
  exact ⟨by decide, by decide⟩

/-- C7 amended: `MpvContext`'s playback operations (load, play, pause,
stop, seek, setVolume, toggleMute) each submit exactly one synchronous
engine call (`mpv_command` or `mpv_set_property`); `load`'s boolean is
exactly the engine's immediate result for that submission (the eventual
playback outcome never enters it — it surfaces via the error callback);
only `MpvController::LoadFile` submits through the fire-and-forget
`mpv_command_async`. -/
theorem C7_submission_kinds (cmdOk : Bool) (sc : CtxState) (st : CtrlState)
    (url options : String) (position volume : MDouble)
    (hc : sc.mpv = true) (ht : st.mpv = true) :
    (ctxLoad cmdOk sc url options).2.all EngineCall.isSyncSubmission = true ∧
    (ctxLoad cmdOk sc url options).1 = cmdOk ∧
    (ctxPlay sc).all EngineCall.isSyncSubmission = true ∧
    (ctxPause sc).all EngineCall.isSyncSubmission = true ∧
    (ctxStop sc).all EngineCall.isSyncSubmission = true ∧
    (ctxSeek sc position).all EngineCall.isSyncSubmission = true ∧
    (ctxSetVolume sc volume).all EngineCall.isSyncSubmission = true ∧
    (ctxToggleMute sc).all EngineCall.isSyncSubmission = true ∧
    ctrlLoadFile st url = [.commandAsync 0 ["loadfile", url]] ∧
    (ctrlLoadFile st url).all EngineCall.isFireAndForget = true := by
  by_cases ho : options = "" <;>
    simp [ctxLoad, ctxPlay, ctxPause, ctxStop, ctxSeek, ctxSetVolume,
          ctxToggleMute, ctrlLoadFile, hc, ht, ho,
          EngineCall.isSyncSubmission, EngineCall.isFireAndForget]

/-- Witness for C7 amended at concrete states and arguments. -/
theorem C7_submission_kinds_witness :
    (ctxLoad true loadReadyCtx "a.mp4" "start=10").2.all
      EngineCall.isSyncSubmission = true ∧
    ctrlLoadFile liveCtrl "a.mp4" =
      [EngineCall.commandAsync 0 ["loadfile", "a.mp4"]] := by
  have h := C7_submission_kinds true loadReadyCtx liveCtrl "a.mp4" "start=10"
    3 50 rfl rfl
  exact ⟨h.1, h.2.2.2.2.2.2.2.2.1⟩

/-! ### Linux platform support (claim C8) -/

/-- C8: on Linux, `IsSupported` is false, both platform factories
(`PlatformGLContext::Create` and `SharedTextureManager::Create`) return
nothing, the DMA-BUF exporter's `Create`/`Resize` return false on every
input, and `MpvController::Initialize` always fails cleanly (with the
GL-context error, leaving the controller uninitialized and unchanged). -/
theorem C8_linux_unsupported (env : CtrlEnv) (s : CtrlState) (w h : Nat)
    (h0 : s.initialized = false) :
    IsSupported .linux = false ∧
    platformGLContextCreate .linux env = none ∧
    sharedTextureManagerCreate .linux env = none ∧
    dmabufCreate w h = false ∧
    dmabufResize w h = false ∧
    linuxGLContextIsValid = false ∧
    ctrlInit .linux env s = (.error "Failed to create GL context", s) := by
  refine ⟨rfl, rfl, rfl, rfl, rfl, rfl, ?_⟩
  simp [ctrlInit, h0, platformGLContextCreate]

/-- Witness for C8 at a concrete environment and controller state. -/
theorem C8_linux_unsupported_witness :
    ctrlInit .linux allOkCtrlEnv freshCtrl =
      (.error "Failed to create GL context", freshCtrl) ∧
    dmabufCreate 1920 1080 = false :=
  ⟨(C8_linux_unsupported allOkCtrlEnv freshCtrl 1920 1080 rfl).2.2.2.2.2.2,
   (C8_linux_unsupported allOkCtrlEnv freshCtrl 1920 1080 rfl).2.2.2.1⟩

end MpvTexture

